import Mathlib

/-!
Shallow embedding of the telescope configuration validation / normalization
subsystem — the validation entry points and error formatter
(`src/validation.ts`), the option schemas (`src/schemas.ts`) and the config
normalizer (`src/config.ts`) — together with proofs about the embedded
operations.

Modelling conventions:
* JavaScript numbers are modelled exactly as signed decimal fixed-point
  values `mant / 10 ^ fexp`; every literal exercised below is within the
  range where IEEE-754 doubles behave exactly like decimals.
* Fallible code (`throw new Error(message)`) is modelled by
  `Except String`, the error string being the thrown message.
* String scanning is done over `String.data` character lists so that every
  definition evaluates inside the kernel.
-/

/-- A JavaScript number as an exact decimal: the value `mant / 10 ^ fexp`. -/
structure JNum where
  mant : Int
  fexp : Nat
deriving DecidableEq, Repr

/-- Strip factors of ten from a decimal representation, giving parsed
literals a canonical form. -/
def canonJNum : Int → Nat → JNum
  | m, 0 => ⟨m, 0⟩
  | m, f + 1 => if m % 10 = 0 then canonJNum (m / 10) f else ⟨m, f + 1⟩

/-- Build the value `± m0 / 10 ^ fcount * 10 ^ ex` from the pieces of a
decimal literal. -/
def mkJNum (neg : Bool) (m0 : Nat) (fcount : Nat) (ex : Int) : JNum :=
  let m : Int := if neg then -(m0 : Int) else (m0 : Int)
  let t : Int := ex - (fcount : Int)
  if 0 ≤ t then ⟨m * (10 : Int) ^ t.toNat, 0⟩
  else canonJNum m (-t).toNat

/-- `Number.isInteger` on the exact-decimal model. -/
def JNum.isInteger (n : JNum) : Bool := n.mant % ((10 : Int) ^ n.fexp) = 0

/-- Strict positivity (`value > 0`). -/
def JNum.isPositive (n : JNum) : Bool := 0 < n.mant

/-- Whether the value is (positive or negative) zero. -/
def JNum.isZero (n : JNum) : Bool := n.mant = 0

/-- A JavaScript runtime value: everything `JSON.parse` can produce, which
also covers the pre-typed structures a programmatic caller may pass. -/
inductive JValue where
  | null : JValue
  | bool (b : Bool) : JValue
  | num (n : JNum) : JValue
  | str (s : String) : JValue
  | arr (elems : List JValue) : JValue
  | obj (fields : List (String × JValue)) : JValue
deriving Repr

/-- JavaScript truthiness (`if (x)`): false for `null`, `false`, zero and the
empty string; true for every object and array. -/
def jsTruthy : JValue → Bool
  | .null => false
  | .bool b => b
  | .num n => !n.isZero
  | .str s => s != ""
  | .arr _ => true
  | .obj _ => true

/-- Decimal rendering of a `JNum` (JS shortest-round-trip formatting agrees
with plain decimal rendering on the finite decimals of this model). -/
def jsNumToString (n : JNum) : String :=
  let sign := if n.mant < 0 then "-" else ""
  let ds := (toString n.mant.natAbs).data
  if n.fexp = 0 then sign ++ String.mk ds
  else
    let padded := if ds.length ≤ n.fexp
      then List.replicate (n.fexp + 1 - ds.length) '0' ++ ds else ds
    let cut := padded.length - n.fexp
    sign ++ String.mk (padded.take cut) ++ "." ++ String.mk (padded.drop cut)

mutual

/-- JavaScript `String(value)`, as applied implicitly by `JSON.parse` when it
is handed a non-string argument. -/
def jsToString : JValue → String
  | .null => "null"
  | .bool b => if b then "true" else "false"
  | .num n => jsNumToString n
  | .str s => s
  | .arr l => jsArrayJoin l
  | .obj _ => "[object Object]"

/-- `Array.prototype.toString`: elements joined with commas, a `null`
element rendered as the empty string. -/
def jsArrayJoin : List JValue → String
  | [] => ""
  | [v] => match v with | .null => "" | v => jsToString v
  | v :: rest =>
      (match v with | .null => "" | v => jsToString v) ++ "," ++ jsArrayJoin rest

end

/-- ECMAScript string whitespace accepted by `ToNumber`. -/
def isJsWhitespace (c : Char) : Bool :=
  c == ' ' || c == '\t' || c == '\n' || c == '\r' || c == '\x0b' ||
    c == '\x0c' || c == '\xa0'

/-- Numeric value of a decimal digit character. -/
def digitVal (c : Char) : Nat := c.toNat - 48

/-- Value of a digit list in the given base. -/
def digitsToNat (base : Nat) (ds : List Nat) : Nat :=
  ds.foldl (fun a d => a * base + d) 0

/-- Hexadecimal digit value, if any. -/
def hexDigitVal (c : Char) : Option Nat :=
  if '0' ≤ c ∧ c ≤ '9' then some (c.toNat - 48)
  else if 'a' ≤ c ∧ c ≤ 'f' then some (c.toNat - 97 + 10)
  else if 'A' ≤ c ∧ c ≤ 'F' then some (c.toNat - 65 + 10)
  else none

/-- Digit value below the given base, for the `0x`/`0o`/`0b` literals of
`ToNumber`. -/
def radixDigitVal (base : Nat) (c : Char) : Option Nat :=
  match hexDigitVal c with
  | some d => if d < base then some d else none
  | none => none

/-- A `0x`/`0o`/`0b` integer literal body. -/
def parseRadixBody (base : Nat) (cs : List Char) : Option JNum :=
  match cs.mapM (radixDigitVal base) with
  | some ds => if ds.isEmpty then none else some ⟨(digitsToNat base ds : Nat), 0⟩
  | none => none

/-- The optional exponent part of a decimal literal; `none` models a syntax
error (`NaN`), including trailing junk after the literal. -/
def parseExpPart : List Char → Option Int
  | [] => some 0
  | e :: rest =>
    if e == 'e' || e == 'E' then
      let (esign, r) := match rest with
        | '+' :: r => (false, r)
        | '-' :: r => (true, r)
        | _ => (false, rest)
      let (ds, r2) := r.span Char.isDigit
      if ds.isEmpty || !r2.isEmpty then none
      else
        let v : Int := (digitsToNat 10 (ds.map digitVal) : Int)
        some (if esign then -v else v)
    else none

/-- The body of a signed decimal literal of `ToNumber`:
`digits ('.' digits?)? exponent?` or `'.' digits exponent?`. -/
def parseDecimalBody (neg : Bool) (cs : List Char) : Option JNum :=
  let (ip, r1) := cs.span Char.isDigit
  let (fp, r2) := match r1 with
    | '.' :: rest => let (f, r) := rest.span Char.isDigit; (some f, r)
    | _ => (none, r1)
  let fds := fp.getD []
  if ip.isEmpty && fds.isEmpty then none
  else match parseExpPart r2 with
    | none => none
    | some ex =>
        some (mkJNum neg (digitsToNat 10 ((ip ++ fds).map digitVal)) fds.length ex)

/-- A decimal literal with optional sign. -/
def parseSignedDecimal (cs : List Char) : Option JNum :=
  match cs with
  | '+' :: rest => parseDecimalBody false rest
  | '-' :: rest => parseDecimalBody true rest
  | _ => parseDecimalBody false cs

/-- ECMAScript `ToNumber` on a string (`Number(s)`); `none` models `NaN`.
The grammar covered is the sign, decimal literals with fraction and exponent,
and `0x`/`0o`/`0b` integer literals; an empty or all-whitespace string is `0`.
(`Infinity` lies outside the exact-decimal model and maps to `none`; no
claim below exercises it.) -/
def jsStringToNumber (s : String) : Option JNum :=
  let cs := ((s.data.dropWhile isJsWhitespace).reverse.dropWhile
    isJsWhitespace).reverse
  match cs with
  | [] => some ⟨0, 0⟩
  | '0' :: c :: rest =>
      if c == 'x' || c == 'X' then parseRadixBody 16 rest
      else if c == 'o' || c == 'O' then parseRadixBody 8 rest
      else if c == 'b' || c == 'B' then parseRadixBody 2 rest
      else parseSignedDecimal cs
  | _ => parseSignedDecimal cs

/-- ECMAScript `ToNumber`, as applied by `z.coerce.number()`.  An array is
converted through its string form; a plain object stringifies to
`[object Object]`, which is `NaN`. -/
def jsToNumber : JValue → Option JNum
  | .null => some ⟨0, 0⟩
  | .bool b => some ⟨if b then 1 else 0, 0⟩
  | .num n => some n
  | .str s => jsStringToNumber s
  | .arr l => jsStringToNumber (jsArrayJoin l)
  | .obj _ => jsStringToNumber "[object Object]"

/-! JSON.parse: a strict recursive-descent parser over the character list.
The fuel bounds the number of parser steps; every step consumes input before
recursing, so `4 * (length + 1)` is never exhausted on any input. -/

/-- JSON whitespace. -/
def isJsonWs (c : Char) : Bool :=
  c == ' ' || c == '\t' || c == '\n' || c == '\r'

/-- Skip JSON whitespace. -/
def skipJsonWs (cs : List Char) : List Char := cs.dropWhile isJsonWs

/-- Map a Unicode escape to a character (values outside the scalar range are
replaced; JSON never needs them in the inputs treated here). -/
def jsonUniChar (n : Nat) : Char :=
  if Nat.isValidChar n then Char.ofNat n else Char.ofNat 0xfffd

/-- The body of a JSON string literal, after the opening quote. -/
def parseStringBody : List Char → List Char → Except String (String × List Char)
  | _, [] => .error "Unterminated string in JSON"
  | acc, '"' :: rest => .ok (String.mk acc.reverse, rest)
  | acc, '\\' :: 'u' :: h1 :: h2 :: h3 :: h4 :: rest =>
      (match hexDigitVal h1, hexDigitVal h2, hexDigitVal h3, hexDigitVal h4 with
       | some a, some b, some c, some d =>
           parseStringBody (jsonUniChar (a * 4096 + b * 256 + c * 16 + d) :: acc) rest
       | _, _, _, _ => .error "Bad Unicode escape in JSON")
  | acc, '\\' :: e :: rest =>
      if e = '"' ∨ e = '\\' ∨ e = '/' then parseStringBody (e :: acc) rest
      else if e = 'b' then parseStringBody ('\x08' :: acc) rest
      else if e = 'f' then parseStringBody ('\x0c' :: acc) rest
      else if e = 'n' then parseStringBody ('\n' :: acc) rest
      else if e = 'r' then parseStringBody ('\r' :: acc) rest
      else if e = 't' then parseStringBody ('\t' :: acc) rest
      else .error "Bad escaped character in JSON"
  | _, ['\\'] => .error "Unterminated string in JSON"
  | acc, c :: rest =>
      if c.val < 32 then .error "Bad control character in JSON"
      else parseStringBody (c :: acc) rest

/-- The fraction/exponent tail of a JSON number, given its sign and integer
part. -/
def parseJsonNumberTail (neg : Bool) (intVal : Nat) (cs : List Char) :
    Except String (JNum × List Char) :=
  let (fds, r1) := match cs with
    | '.' :: rest => let (f, r) := rest.span Char.isDigit; (some f, r)
    | _ => (none, cs)
  match fds with
  | some [] => .error "Unexpected token . in JSON"
  | _ =>
    let f := fds.getD []
    match r1 with
    | 'e' :: rest | 'E' :: rest =>
        let (esign, r2) := match rest with
          | '+' :: r => (false, r)
          | '-' :: r => (true, r)
          | _ => (false, rest)
        let (eds, r3) := r2.span Char.isDigit
        if eds.isEmpty then .error "Exponent part is missing a number in JSON"
        else
          let ev : Int := (digitsToNat 10 (eds.map digitVal) : Int)
          .ok (mkJNum neg (intVal * 10 ^ f.length + digitsToNat 10 (f.map digitVal))
                f.length (if esign then -ev else ev), r3)
    | _ =>
        .ok (mkJNum neg (intVal * 10 ^ f.length + digitsToNat 10 (f.map digitVal))
              f.length 0, r1)

/-- A JSON number literal (strict grammar: no leading `+`, no leading zeros,
no bare `.`). -/
def parseJsonNumber (cs : List Char) : Except String (JNum × List Char) :=
  let (neg, cs1) := match cs with
    | '-' :: rest => (true, rest)
    | _ => (false, cs)
  match cs1 with
  | [] => .error "Unexpected end of JSON input"
  | '0' :: d :: rest =>
      if d.isDigit then .error "Unexpected number in JSON"
      else parseJsonNumberTail neg 0 (d :: rest)
  | ['0'] => parseJsonNumberTail neg 0 []
  | c :: _ =>
      if c.isDigit then
        let (ds, rest) := cs1.span Char.isDigit
        parseJsonNumberTail neg (digitsToNat 10 (ds.map digitVal)) rest
      else .error ("Unexpected token " ++ String.singleton c ++ " in JSON")

/-- Insert a member into an object under assembly: a repeated key keeps its
first position and takes the later value, as in JavaScript. -/
def objInsert : List (String × JValue) → String → JValue → List (String × JValue)
  | [], k, v => [(k, v)]
  | (k', v') :: rest, k, v =>
      if k' = k then (k', v) :: rest else (k', v') :: objInsert rest k v

mutual

/-- One JSON value, returning the unconsumed remainder. -/
def parseJValue : Nat → List Char → Except String (JValue × List Char)
  | 0, _ => .error "JSON input too deeply nested"
  | fuel + 1, cs =>
    match skipJsonWs cs with
    | [] => .error "Unexpected end of JSON input"
    | '"' :: rest => (parseStringBody [] rest).map fun (s, r) => (.str s, r)
    | '[' :: rest => parseJsonElems fuel rest
    | 't' :: 'r' :: 'u' :: 'e' :: rest => .ok (.bool true, rest)
    | 'f' :: 'a' :: 'l' :: 's' :: 'e' :: rest => .ok (.bool false, rest)
    | 'n' :: 'u' :: 'l' :: 'l' :: rest => .ok (.null, rest)
    | c :: rest =>
        if c = '{' then parseJsonMembers fuel rest
        else if c = '-' ∨ c.isDigit then
          (parseJsonNumber (c :: rest)).map fun (n, r) => (.num n, r)
        else .error ("Unexpected token " ++ String.singleton c ++ " in JSON")

/-- An array body after `[`: empty, or elements from the first one on. -/
def parseJsonElems : Nat → List Char → Except String (JValue × List Char)
  | 0, _ => .error "JSON input too deeply nested"
  | fuel + 1, cs =>
    match skipJsonWs cs with
    | ']' :: rest => .ok (.arr [], rest)
    | cs' => do
        let (v, r) ← parseJValue fuel cs'
        parseJsonElemsRest fuel [v] r

/-- The `, element`* tail of an array body. -/
def parseJsonElemsRest : Nat → List JValue → List Char →
    Except String (JValue × List Char)
  | 0, _, _ => .error "JSON input too deeply nested"
  | fuel + 1, acc, cs =>
    match skipJsonWs cs with
    | ']' :: rest => .ok (.arr acc.reverse, rest)
    | ',' :: rest => do
        let (v, r) ← parseJValue fuel rest
        parseJsonElemsRest fuel (v :: acc) r
    | [] => .error "Unexpected end of JSON input"
    | c :: _ => .error ("Unexpected token " ++ String.singleton c ++ " in JSON")

/-- An object body after the opening brace: empty, or members from the first
one on. -/
def parseJsonMembers : Nat → List Char → Except String (JValue × List Char)
  | 0, _ => .error "JSON input too deeply nested"
  | fuel + 1, cs =>
    match skipJsonWs cs with
    | c :: rest =>
        if c = '}' then .ok (.obj [], rest)
        else parseJsonMember fuel [] (c :: rest)
    | [] => .error "Unexpected end of JSON input"

/-- One `"key": value` member. -/
def parseJsonMember : Nat → List (String × JValue) → List Char →
    Except String (JValue × List Char)
  | 0, _, _ => .error "JSON input too deeply nested"
  | fuel + 1, acc, cs =>
    match skipJsonWs cs with
    | '"' :: rest => do
        let (k, r1) ← parseStringBody [] rest
        match skipJsonWs r1 with
        | ':' :: r2 => do
            let (v, r3) ← parseJValue fuel r2
            parseJsonMembersRest fuel (objInsert acc k v) r3
        | [] => .error "Unexpected end of JSON input"
        | c :: _ => .error ("Unexpected token " ++ String.singleton c ++ " in JSON")
    | [] => .error "Unexpected end of JSON input"
    | c :: _ => .error ("Unexpected token " ++ String.singleton c ++ " in JSON")

/-- The `, member`* tail of an object body. -/
def parseJsonMembersRest : Nat → List (String × JValue) → List Char →
    Except String (JValue × List Char)
  | 0, _, _ => .error "JSON input too deeply nested"
  | fuel + 1, acc, cs =>
    match skipJsonWs cs with
    | c :: rest =>
        if c = '}' then .ok (.obj acc, rest)
        else if c = ',' then parseJsonMember fuel acc rest
        else .error ("Unexpected token " ++ String.singleton c ++ " in JSON")
    | [] => .error "Unexpected end of JSON input"

end

/-- `JSON.parse`: strict JSON syntax, the error string being the parser's
description of the first syntax error. -/
def jsonParse (text : String) : Except String JValue := do
  let (v, rest) ← parseJValue (4 * (text.data.length + 1)) text.data
  match skipJsonWs rest with
  | [] => pure v
  | c :: _ => .error ("Unexpected token " ++ String.singleton c ++ " in JSON")

example : jsonParse "" = .error "Unexpected end of JSON input" := rfl
example : jsonParse "[]" = .ok (.arr []) := rfl
example : jsonParse "{}" = .ok (.obj []) := rfl
example : jsonParse " [1, 2.5, \"x\", true, null] " =
    .ok (.arr [.num ⟨1, 0⟩, .num ⟨25, 1⟩, .str "x", .bool true, .null]) := rfl
example : jsonParse "\x7b\"a\": 1\x7d" = .ok (.obj [("a", .num ⟨1, 0⟩)]) := rfl
example : jsonParse "\x7b\"a\": 1,\x7d" =
    .error "Unexpected token \x7d in JSON" := rfl
example : jsonParse "\x7ba: 1\x7d" = .error "Unexpected token a in JSON" := rfl
example : jsonParse "[ \x27one\x27 ]" = .error "Unexpected token \x27 in JSON" := rfl
example : jsonParse "01" = .error "Unexpected number in JSON" := rfl
example : jsonParse "[object Object]" = .error "Unexpected token o in JSON" := rfl
example : jsonParse "\"a\\nb\"" = .ok (.str "a\nb") := rfl
example : jsStringToNumber "42" = some ⟨42, 0⟩ := rfl
example : jsStringToNumber " 4.50 " = some ⟨45, 1⟩ := rfl
example : jsStringToNumber "" = some ⟨0, 0⟩ := rfl
example : jsStringToNumber "abc" = none := rfl
example : jsStringToNumber "-1.5" = some ⟨-15, 1⟩ := rfl
example : jsStringToNumber "0x1A" = some ⟨26, 0⟩ := rfl
example : jsStringToNumber "3e2" = some ⟨300, 0⟩ := rfl
example : jsStringToNumber "3.14" = some ⟨314, 2⟩ := rfl
example : jsNumToString ⟨-45, 1⟩ = "-4.5" := rfl
example : jsNumToString ⟨5, 2⟩ = "0.05" := rfl
example : jsToString (.arr [.obj [("name", .str "a")]]) = "[object Object]" := rfl

/-! The zod layer: issues, schema values, and the schemas of
`src/schemas.ts`. -/

/-- One zod validation issue: a field path and a message.  Numeric path
segments (array indices) are carried as their decimal strings, matching how
`path.join` renders them in the error formatter. -/
structure ZIssue where
  path : List String
  message : String
deriving DecidableEq, Repr

/-- The runtime content of a `ZodSchema<T>` for structured data:
`safeParse`, sending a candidate value to the typed result or to the list of
issues. -/
def ZSchema : Type := JValue → Except (List ZIssue) JValue

/-- zod's name for the runtime type of a parsed value. -/
def zodTypeName : JValue → String
  | .null => "null"
  | .bool _ => "boolean"
  | .num _ => "number"
  | .str _ => "string"
  | .arr _ => "array"
  | .obj _ => "object"

/-- `z.string()` as a value check: the issue message, if any. -/
def zStringCheck : JValue → Option String
  | .str _ => none
  | v => some ("Expected string, received " ++ zodTypeName v)

/-- `z.number()` as a value check. -/
def zNumberCheck : JValue → Option String
  | .num _ => none
  | v => some ("Expected number, received " ++ zodTypeName v)

/-- `z.boolean()` as a value check. -/
def zBooleanCheck : JValue → Option String
  | .bool _ => none
  | v => some ("Expected boolean, received " ++ zodTypeName v)

/-- A string in single quotes, as zod renders enum members. -/
def quoteLit (s : String) : String := "\x27" ++ s ++ "\x27"

/-- `z.enum([...])` as a value check. -/
def zEnumCheck (opts : List String) : JValue → Option String
  | .str s =>
      if opts.contains s then none
      else some ("Invalid enum value. Expected " ++
        String.intercalate " | " (opts.map quoteLit) ++ ", received " ++ quoteLit s)
  | v => some ("Expected " ++ String.intercalate " | " (opts.map quoteLit) ++
      ", received " ++ zodTypeName v)

/-- `z.union([z.string(), z.number(), z.boolean()])` as a value check (the
Firefox preference scalars). -/
def zScalarCheck : JValue → Option String
  | .str _ => none
  | .num _ => none
  | .bool _ => none
  | _ => some "Invalid input"

/-- One field of a `z.object` shape: the key, whether the field is required
(no `.optional()`), and the value check. -/
structure ZField where
  key : String
  required : Bool
  check : JValue → Option String

/-- The issues a `z.object` shape produces over an object's fields, in shape
order: `Required` for a missing required key, the check's message for a
present key of the wrong type. -/
def zShapeIssues (shape : List ZField) (fields : List (String × JValue)) :
    List ZIssue :=
  shape.foldl (fun issues f =>
    match fields.lookup f.key with
    | none => if f.required then issues ++ [⟨[f.key], "Required"⟩] else issues
    | some v =>
      match f.check v with
      | some msg => issues ++ [⟨[f.key], msg⟩]
      | none => issues) []

/-- `z.object(shape)`; `passthrough` keeps unknown keys (cookies), while
zod's default strips them. -/
def zObject (shape : List ZField) (passthrough : Bool) : ZSchema := fun v =>
  match v with
  | .obj fields =>
      let issues := zShapeIssues shape fields
      if issues.isEmpty then
        .ok (if passthrough then .obj fields
          else .obj (fields.filter fun kv => (shape.map ZField.key).contains kv.1))
      else .error issues
  | _ => .error [⟨[], "Expected object, received " ++ zodTypeName v⟩]

/-- `z.record(z.string(), value-check)`: an object each of whose values
passes the check; an array is reported as an array, not accepted. -/
def zRecord (check : JValue → Option String) : ZSchema := fun v =>
  match v with
  | .obj fields =>
      let issues := fields.foldl (fun issues kv =>
        match check kv.2 with
        | some msg => issues ++ [⟨[kv.1], msg⟩]
        | none => issues) []
      if issues.isEmpty then .ok v else .error issues
  | _ => .error [⟨[], "Expected object, received " ++ zodTypeName v⟩]

/-- `z.string()` as a standalone schema (array elements). -/
def zStringSchema : ZSchema := fun v =>
  match zStringCheck v with
  | none => .ok v
  | some msg => .error [⟨[], msg⟩]

/-- `z.array(elem)`: element issues carry the element's index at the head of
their path, elements are reported in order. -/
def zArray (elem : ZSchema) : ZSchema := fun v =>
  match v with
  | .arr elems =>
      let issues := elems.enum.foldl (fun issues ie =>
        match elem ie.2 with
        | .error es => issues ++ es.map fun is => ⟨toString ie.1 :: is.path, is.message⟩
        | .ok _ => issues) []
      if issues.isEmpty then
        .ok (.arr (elems.map fun e => match elem e with | .ok w => w | .error _ => e))
      else .error issues
  | _ => .error [⟨[], "Expected array, received " ++ zodTypeName v⟩]

/-- `z.union([a, b])`: the first branch that succeeds wins; when both fail,
zod reports a single root `invalid_union` issue. -/
def zUnion2 (a b : ZSchema) : ZSchema := fun v =>
  match a v with
  | .ok w => .ok w
  | .error _ =>
    match b v with
    | .ok w => .ok w
    | .error _ => .error [⟨[], "Invalid input"⟩]

/-- `CookieSchema` (`src/schemas.ts`).  As in the source, `name`, `value`,
`domain` and `path` carry no `.optional()`, the remaining fields do, and the
object is `.passthrough()`. -/
def CookieSchema : ZSchema :=
  zObject [
    ⟨"name", true, zStringCheck⟩,
    ⟨"value", true, zStringCheck⟩,
    ⟨"domain", true, zStringCheck⟩,
    ⟨"path", true, zStringCheck⟩,
    ⟨"expires", false, zNumberCheck⟩,
    ⟨"httpOnly", false, zBooleanCheck⟩,
    ⟨"secure", false, zBooleanCheck⟩,
    ⟨"sameSite", false, zEnumCheck ["Strict", "Lax", "None"]⟩,
    ⟨"url", false, zStringCheck⟩] true

/-- `CookiesSchema = z.union([z.array(CookieSchema), CookieSchema])`. -/
def CookiesSchema : ZSchema := zUnion2 (zArray CookieSchema) CookieSchema

/-- `HeadersSchema = z.record(z.string(), z.string())`. -/
def HeadersSchema : ZSchema := zRecord zStringCheck

/-- `AuthSchema` (`src/schemas.ts`). -/
def AuthSchema : ZSchema :=
  zObject [
    ⟨"username", true, zStringCheck⟩,
    ⟨"password", true, zStringCheck⟩,
    ⟨"origin", false, zStringCheck⟩,
    ⟨"send", false, zEnumCheck ["unauthorized", "always"]⟩] false

/-- `FirefoxPrefsSchema = z.record(z.string(), z.union([z.string(),
z.number(), z.boolean()]))`. -/
def FirefoxPrefsSchema : ZSchema := zRecord zScalarCheck

/-- `OverrideHostSchema = z.record(z.string(), z.string())`. -/
def OverrideHostSchema : ZSchema := zRecord zStringCheck

/-- `StringArraySchema = z.array(z.string())`. -/
def StringArraySchema : ZSchema := zArray zStringSchema

/-- `PositiveIntSchema = z.coerce.number().int().positive()`: coercion by
`ToNumber`, then the integer and strict-positivity checks (zod aggregates
the check issues). -/
def PositiveIntSchema (v : JValue) : Except (List ZIssue) JNum :=
  match jsToNumber v with
  | none => .error [⟨[], "Expected number, received nan"⟩]
  | some n =>
      let issues : List ZIssue :=
        (if n.isInteger then [] else [⟨[], "Expected integer, received float"⟩])
          ++ (if n.isPositive then [] else [⟨[], "Number must be greater than 0"⟩])
      if issues.isEmpty then .ok n else .error issues

/-- `PositiveFloatSchema = z.coerce.number().positive()`. -/
def PositiveFloatSchema (v : JValue) : Except (List ZIssue) JNum :=
  match jsToNumber v with
  | none => .error [⟨[], "Expected number, received nan"⟩]
  | some n =>
      if n.isPositive then .ok n
      else .error [⟨[], "Number must be greater than 0"⟩]

/-! The validation entry points and error formatter of
`src/validation.ts`. -/

/-- The line rendered for one issue: the body of the `map` inside
`formatZodError`. -/
def zIssueLine (issue : ZIssue) : String :=
  let path := if issue.path.length > 0 then String.intercalate "." issue.path
    else "(root)"
  "  - " ++ path ++ ": " ++ issue.message

/-- `formatZodError` (`src/validation.ts`). -/
def formatZodError (issues : List ZIssue) : String :=
  String.intercalate "\n" (issues.map zIssueLine)

/-- `parseCLIOption` (`src/validation.ts`): `JSON.parse`, then schema
validation, each failure thrown with the flag name as context. -/
def parseCLIOption (flagName : String) (jsonString : String) (schema : ZSchema) :
    Except String JValue :=
  match jsonParse jsonString with
  | .error err => .error ("Invalid JSON for \"" ++ flagName ++ "\": " ++ err)
  | .ok parsed =>
    match schema parsed with
    | .error issues =>
        .error ("Invalid data for \"" ++ flagName ++ "\":\n" ++ formatZodError issues)
    | .ok data => .ok data

/-- `parseUnknown` (`src/validation.ts`): schema-only validation for
already-parsed data. -/
def parseUnknown (flagName : String) (data : JValue) (schema : ZSchema) :
    Except String JValue :=
  match schema data with
  | .error issues =>
      .error ("Invalid data for \"" ++ flagName ++ "\":\n" ++ formatZodError issues)
  | .ok d => .ok d

example : parseCLIOption "--test" "" CookiesSchema =
    .error "Invalid JSON for \"--test\": Unexpected end of JSON input" := rfl
example : parseCLIOption "--cookies"
    "\x7b\"name\":\"a\",\"value\":\"b\",\"domain\":\"example.com\",\"path\":\"/\"\x7d"
    CookiesSchema = .ok (.obj [("name", .str "a"), ("value", .str "b"),
      ("domain", .str "example.com"), ("path", .str "/")]) := rfl
example : parseCLIOption "--cookies" "\"just a string\"" CookiesSchema =
    .error "Invalid data for \"--cookies\":\n  - (root): Invalid input" := rfl
example : parseCLIOption "--headers" "\x7b\"Accept\": 123\x7d" HeadersSchema =
    .error "Invalid data for \"--headers\":\n  - Accept: Expected string, received number" := rfl
example : parseUnknown "--block" (.arr [.str "a", .str "b"]) StringArraySchema =
    .ok (.arr [.str "a", .str "b"]) := rfl
example : parseUnknown "--block" (.arr [.num ⟨1, 0⟩]) StringArraySchema =
    .error "Invalid data for \"--block\":\n  - 0: Expected string, received number" := rfl
example : PositiveIntSchema (.str "42") = .ok ⟨42, 0⟩ := rfl
example : PositiveIntSchema (.str "3.5") =
    .error [⟨[], "Expected integer, received float"⟩] := rfl
example : PositiveIntSchema (.str "") =
    .error [⟨[], "Number must be greater than 0"⟩] := rfl
example : PositiveFloatSchema (.str "4.5") = .ok ⟨45, 1⟩ := rfl
example : PositiveFloatSchema (.str "fast") =
    .error [⟨[], "Expected number, received nan"⟩] := rfl

/-! The config normalizer of `src/config.ts`. -/

/-- `string.split(/,/)`. -/
def jsSplitCommaAux : List Char → List Char → List String
  | acc, [] => [String.mk acc.reverse]
  | acc, ',' :: rest => String.mk acc.reverse :: jsSplitCommaAux [] rest
  | acc, c :: rest => jsSplitCommaAux (c :: acc) rest

/-- `string.split(/,/)` over a string. -/
def jsSplitComma (s : String) : List String := jsSplitCommaAux [] s.data

/-- `string.includes(char)`. -/
def jsIncludes (s : String) (c : Char) : Bool := s.data.contains c

/-- The strings of a validated `StringArraySchema` result (in TypeScript the
validated value already has type `string[]`). -/
def jStrings : JValue → List String
  | .arr elems => elems.filterMap fun e =>
      match e with
      | .str s => some s
      | _ => none
  | _ => []

/-- `parseJSONArrayOrCommaSeparatedStrings` (`src/config.ts`): each entry
containing `[` is `JSON.parse`d and validated as a string array; any other
entry is split on commas with falsy (empty) tokens dropped; results are
concatenated in order.  Errors propagate unwrapped (the caller adds the
flag-specific prefix). -/
def parseJSONArrayOrCommaSeparatedStrings (flagName : String)
    (choices : List String) : Except String (List String) :=
  choices.foldlM (fun chosen optGroup =>
    if jsIncludes optGroup '[' then do
      let parsed ← jsonParse optGroup
      let validated ← parseUnknown flagName parsed StringArraySchema
      pure (chosen ++ jStrings validated)
    else
      pure (chosen ++ (jsSplitComma optGroup).filter (fun opt => opt != ""))) []

/-- The input record of `normalizeCLIConfig` (`CLIOptions`): structured
fields may arrive as raw JSON strings from the CLI or as pre-typed values
from a programmatic caller, hence `JValue` for their payload. -/
structure CLIOptions where
  url : String
  browser : Option String
  width : Option JNum
  height : Option JNum
  frameRate : Option JNum
  timeout : Option JNum
  blockDomains : Option (List String)
  block : Option (List String)
  disableJS : Option Bool
  debug : Option Bool
  html : Option Bool
  openHtml : Option Bool
  list : Option Bool
  connectionType : Option String
  zip : Option Bool
  dry : Option Bool
  cookies : Option JValue
  headers : Option JValue
  auth : Option JValue
  delay : Option String
  delayUsing : Option String
  firefoxPrefs : Option JValue
  overrideHost : Option JValue
  flags : Option (List String)
  cpuThrottle : Option JNum
  uploadUrl : Option String

/-- A `CLIOptions` record with only `url` supplied. -/
def baseOptions (url : String) : CLIOptions :=
  { url := url, browser := none, width := none, height := none,
    frameRate := none, timeout := none, blockDomains := none, block := none,
    disableJS := none, debug := none, html := none, openHtml := none,
    list := none, connectionType := none, zip := none, dry := none,
    cookies := none, headers := none, auth := none, delay := none,
    delayUsing := none, firefoxPrefs := none, overrideHost := none,
    flags := none, cpuThrottle := none, uploadUrl := none }

/-- The output record of `normalizeCLIConfig` (`LaunchOptions`). -/
structure LaunchOptions where
  url : String
  browser : String
  width : JNum
  height : JNum
  frameRate : JNum
  timeout : JNum
  blockDomains : List String
  block : List String
  disableJS : Bool
  debug : Bool
  html : Bool
  openHtml : Bool
  list : Bool
  connectionType : String
  auth : Option JValue
  zip : Bool
  dry : Bool
  delayUsing : String
  cookies : Option JValue
  headers : Option JValue
  delay : Option JValue
  firefoxPrefs : Option JValue
  overrideHost : Option JValue
  args : Option (List String)
  cpuThrottle : Option JNum
  uploadUrl : Option String

/-- The default values referenced by `normalizeCLIConfig`. -/
structure DefaultOptions where
  browser : String
  width : JNum
  height : JNum
  frameRate : JNum
  timeout : JNum
  blockDomains : List String
  block : List String
  disableJS : Bool
  debug : Bool
  html : Bool
  openHtml : Bool
  list : Bool
  connectionType : String
  auth : Option JValue
  zip : Bool
  dry : Bool
  delayUsing : String

/-- Modelled from the spec: `defaultOptions.ts` is not under `src/`.  The
spec documents the width default (1366); the remaining values are
representative defaults of the documented types.  The theorems below refer
to the default fields symbolically, so no claim depends on any value here
other than `width`. -/
def DEFAULT_OPTIONS : DefaultOptions :=
  { browser := "chromium", width := ⟨1366, 0⟩, height := ⟨768, 0⟩,
    frameRate := ⟨30, 0⟩, timeout := ⟨30000, 0⟩, blockDomains := [],
    block := [], disableJS := false, debug := false, html := false,
    openHtml := false, list := false, connectionType := "online",
    auth := none, zip := false, dry := false, delayUsing := "fulfill" }

/-- `a || b` for an optional boolean field (JS truthiness defaulting). -/
def boolOr (o : Option Bool) (d : Bool) : Bool :=
  match o with
  | some true => true
  | _ => d

/-- `a || b` for an optional string field (the empty string is falsy). -/
def strOr (o : Option String) (d : String) : String :=
  match o with
  | some s => if s != "" then s else d
  | none => d

/-- The object literal with which `normalizeCLIConfig` initialises the
config: `??` (explicit-undefined check) for `width`/`height`/`frameRate`/
`timeout`, `||` (truthiness) for the other defaulted scalars; an array value
(`blockDomains`, `block`) is always truthy, so `||` keeps even an empty
supplied list. -/
def initialConfig (options : CLIOptions) : LaunchOptions :=
  { url := options.url
    browser := strOr options.browser DEFAULT_OPTIONS.browser
    width := options.width.getD DEFAULT_OPTIONS.width
    height := options.height.getD DEFAULT_OPTIONS.height
    frameRate := options.frameRate.getD DEFAULT_OPTIONS.frameRate
    timeout := options.timeout.getD DEFAULT_OPTIONS.timeout
    blockDomains := options.blockDomains.getD DEFAULT_OPTIONS.blockDomains
    block := options.block.getD DEFAULT_OPTIONS.block
    disableJS := boolOr options.disableJS DEFAULT_OPTIONS.disableJS
    debug := boolOr options.debug DEFAULT_OPTIONS.debug
    html := boolOr options.html DEFAULT_OPTIONS.html
    openHtml := boolOr options.openHtml DEFAULT_OPTIONS.openHtml
    list := boolOr options.list DEFAULT_OPTIONS.list
    connectionType := strOr options.connectionType DEFAULT_OPTIONS.connectionType
    auth := DEFAULT_OPTIONS.auth
    zip := boolOr options.zip DEFAULT_OPTIONS.zip
    dry := boolOr options.dry DEFAULT_OPTIONS.dry
    delayUsing := DEFAULT_OPTIONS.delayUsing
    cookies := none, headers := none, delay := none, firefoxPrefs := none,
    overrideHost := none, args := none, cpuThrottle := none, uploadUrl := none }

/-- The `--cookies` block of `normalizeCLIConfig`.  `parseCLIOption` is
applied to every truthy value, string or not: `JSON.parse` coerces a
non-string argument with `String(value)` first. -/
def stepCookies (options : CLIOptions) (config : LaunchOptions) :
    Except String LaunchOptions :=
  match options.cookies with
  | some v =>
      if jsTruthy v then do
        let parsed ← parseCLIOption "--cookies" (jsToString v) CookiesSchema
        pure { config with cookies := some parsed }
      else pure config
  | none => pure config

/-- The `--headers` block. -/
def stepHeaders (options : CLIOptions) (config : LaunchOptions) :
    Except String LaunchOptions :=
  match options.headers with
  | some v =>
      if jsTruthy v then do
        let parsed ← parseCLIOption "--headers" (jsToString v) HeadersSchema
        pure { config with headers := some parsed }
      else pure config
  | none => pure config

/-- The `--auth` block. -/
def stepAuth (options : CLIOptions) (config : LaunchOptions) :
    Except String LaunchOptions :=
  match options.auth with
  | some v =>
      if jsTruthy v then do
        let parsed ← parseCLIOption "--auth" (jsToString v) AuthSchema
        pure { config with auth := some parsed }
      else pure config
  | none => pure config

/-- The `--delay` block: a bare `JSON.parse` with a TypeScript cast and no
schema validation (`config.delay = JSON.parse(options.delay) as
Record<string, number>`). -/
def stepDelay (options : CLIOptions) (config : LaunchOptions) :
    Except String LaunchOptions :=
  match options.delay with
  | some s =>
      if s != "" then do
        let parsed ← jsonParse s
        pure { config with delay := some parsed }
      else pure config
  | none => pure config

/-- The `--delayUsing` block: overridden only for the exact literals
`fulfill` and `continue`; any other value is silently ignored. -/
def stepDelayUsing (options : CLIOptions) (config : LaunchOptions) :
    LaunchOptions :=
  match options.delayUsing with
  | some s =>
      if s != "" && (s == "fulfill" || s == "continue") then
        { config with delayUsing := s }
      else config
  | none => config

/-- The `--firefoxPrefs` block. -/
def stepFirefoxPrefs (options : CLIOptions) (config : LaunchOptions) :
    Except String LaunchOptions :=
  match options.firefoxPrefs with
  | some v =>
      if jsTruthy v then do
        let parsed ← parseCLIOption "--firefoxPrefs" (jsToString v) FirefoxPrefsSchema
        pure { config with firefoxPrefs := some parsed }
      else pure config
  | none => pure config

/-- The `--overrideHost` block. -/
def stepOverrideHost (options : CLIOptions) (config : LaunchOptions) :
    Except String LaunchOptions :=
  match options.overrideHost with
  | some v =>
      if jsTruthy v then do
        let parsed ← parseCLIOption "--overrideHost" (jsToString v) OverrideHostSchema
        pure { config with overrideHost := some parsed }
      else pure config
  | none => pure config

/-- The `flags` block: already parsed to `string[]` by the argParser; an
array is always truthy, so even an empty list is copied to `args`. -/
def stepFlags (options : CLIOptions) (config : LaunchOptions) : LaunchOptions :=
  match options.flags with
  | some l => { config with args := some l }
  | none => config

/-- The `cpuThrottle` block: a plain truthiness guard on a number, so a
supplied `0` is treated as absent. -/
def stepCpuThrottle (options : CLIOptions) (config : LaunchOptions) :
    LaunchOptions :=
  match options.cpuThrottle with
  | some n => if !n.isZero then { config with cpuThrottle := some n } else config
  | none => config

/-- The `--block` block: list parsing with the flag-specific wrapping of any
error. -/
def stepBlock (options : CLIOptions) (config : LaunchOptions) :
    Except String LaunchOptions :=
  match options.block with
  | some entries =>
      match parseJSONArrayOrCommaSeparatedStrings "--block" entries with
      | .ok parsed => pure { config with block := parsed }
      | .error e => .error ("Problem parsing \"--block\" options - " ++ e)
  | none => pure config

/-- The `--blockDomains` block. -/
def stepBlockDomains (options : CLIOptions) (config : LaunchOptions) :
    Except String LaunchOptions :=
  match options.blockDomains with
  | some entries =>
      match parseJSONArrayOrCommaSeparatedStrings "--blockDomains" entries with
      | .ok parsed => pure { config with blockDomains := parsed }
      | .error e => .error ("Problem parsing \"--blockDomains\" options - " ++ e)
  | none => pure config

/-- Modelled from the spec for the external `new URL` constructor: uploadUrl
is "validated only for well-formed URL syntax".  Modelled as a nonempty
alphabetic scheme followed by a colon and more input. -/
def jsURLWellFormed (s : String) : Bool :=
  let (scheme, rest) := s.data.span (fun c => c != ':')
  !scheme.isEmpty && scheme.all Char.isAlpha && !rest.isEmpty

/-- The `uploadUrl` block: the fixed generic message on a malformed URL. -/
def stepUploadUrl (options : CLIOptions) (config : LaunchOptions) :
    Except String LaunchOptions :=
  match options.uploadUrl with
  | some u =>
      if u != "" then
        if jsURLWellFormed u then pure { config with uploadUrl := some u }
        else .error "--uploadUrl must be a valid URL"
      else pure config
  | none => pure config

/-- `normalizeCLIConfig` (`src/config.ts`): the initial literal followed by
the per-field blocks, in source order; the first thrown error aborts the
whole call. -/
def normalizeCLIConfig (options : CLIOptions) : Except String LaunchOptions := do
  let config := initialConfig options
  let config ← stepCookies options config
  let config ← stepHeaders options config
  let config ← stepAuth options config
  let config ← stepDelay options config
  let config := stepDelayUsing options config
  let config ← stepFirefoxPrefs options config
  let config ← stepOverrideHost options config
  let config := stepFlags options config
  let config := stepCpuThrottle options config
  let config ← stepBlock options config
  let config ← stepBlockDomains options config
  stepUploadUrl options config

example : (normalizeCLIConfig (baseOptions "https://example.com")).map
    LaunchOptions.width = .ok ⟨1366, 0⟩ := rfl
example : (normalizeCLIConfig (baseOptions "https://example.com")).map
    LaunchOptions.url = .ok "https://example.com" := rfl
/-- The pre-typed cookie list of the repository's "passes through
already-parsed cookies" test. -/
def preTypedCookies : JValue :=
  .arr [.obj [("name", .str "a"), ("value", .str "b"), ("domain", .str "d"),
    ("path", .str "/")]]

/-- Options supplying pre-typed cookies (the programmatic path). -/
def preTypedCookieOptions : CLIOptions :=
  { baseOptions "https://example.com" with cookies := some preTypedCookies }

/-- Options supplying the spec's single-quoted `block` entry. -/
def singleQuotedBlockOptions : CLIOptions :=
  { baseOptions "https://example.com" with
      block := some ["[ \x27one\x27, \x27two\x27 ]"] }

/-- Options supplying a delay map with a (non-numeric) string value. -/
def stringDelayOptions : CLIOptions :=
  { baseOptions "https://example.com" with
      delay := some "\x7b\".css$\": \"slow\"\x7d" }

example : normalizeCLIConfig preTypedCookieOptions =
    .error "Invalid JSON for \"--cookies\": Unexpected token o in JSON" := rfl
example : normalizeCLIConfig singleQuotedBlockOptions =
    .error "Problem parsing \"--block\" options - Unexpected token \x27 in JSON" := rfl
example : (normalizeCLIConfig stringDelayOptions).map LaunchOptions.delay =
    .ok (some (.obj [(".css$", .str "slow")])) := rfl
example : (normalizeCLIConfig { baseOptions "u" with width := some ⟨1920, 0⟩ }).map
    LaunchOptions.width = .ok ⟨1920, 0⟩ := rfl
example : (normalizeCLIConfig { baseOptions "u" with cpuThrottle := some ⟨4, 0⟩ }).map
    LaunchOptions.cpuThrottle = .ok (some ⟨4, 0⟩) := rfl
example : (normalizeCLIConfig { baseOptions "u" with flags := some [] }).map
    LaunchOptions.args = .ok (some []) := rfl
example : (normalizeCLIConfig { baseOptions "u" with block := some ["a,b", "c"] }).map
    LaunchOptions.block = .ok ["a", "b", "c"] := rfl
example : parseJSONArrayOrCommaSeparatedStrings "--block" ["[\"x\", \"y\"]", "a,,b"] =
    .ok ["x", "y", "a", "b"] := rfl

/-! Proof infrastructure: decomposing the normalizer's `Except` chain and
the per-block field-preservation lemmas. -/

/-- Inverting a successful `Except` bind. -/
theorem except_bind_ok {α β γ : Type} {x : Except α β} {f : β → Except α γ}
    {c : γ} (h : x >>= f = .ok c) : ∃ b, x = .ok b ∧ f b = .ok c := by
  cases x with
  | error e => exact Except.noConfusion h
  | ok b => exact ⟨b, rfl, h⟩

/-- The scalar projections that the structured-field blocks never write. -/
structure ScalarsEq (c c' : LaunchOptions) : Prop where
  width : c'.width = c.width
  height : c'.height = c.height
  frameRate : c'.frameRate = c.frameRate
  timeout : c'.timeout = c.timeout
  delayUsing : c'.delayUsing = c.delayUsing
  cpuThrottle : c'.cpuThrottle = c.cpuThrottle

/-- `ScalarsEq` composes along the chain. -/
theorem ScalarsEq.trans {a b c : LaunchOptions} (h1 : ScalarsEq a b)
    (h2 : ScalarsEq b c) : ScalarsEq a c := by
  exact ⟨h2.width.trans h1.width, h2.height.trans h1.height,
    h2.frameRate.trans h1.frameRate, h2.timeout.trans h1.timeout,
    h2.delayUsing.trans h1.delayUsing, h2.cpuThrottle.trans h1.cpuThrottle⟩

/-- The cookies block writes only `config.cookies`. -/
theorem stepCookies_scalars {o : CLIOptions} {c c' : LaunchOptions}
    (h : stepCookies o c = .ok c') : ScalarsEq c c' := by
  unfold stepCookies at h
  split at h
  · split at h
    · obtain ⟨b, _, hf⟩ := except_bind_ok h
      cases hf
      exact ⟨rfl, rfl, rfl, rfl, rfl, rfl⟩
    · cases h
      exact ⟨rfl, rfl, rfl, rfl, rfl, rfl⟩
  · cases h
    exact ⟨rfl, rfl, rfl, rfl, rfl, rfl⟩

/-- The headers block writes only `config.headers`. -/
theorem stepHeaders_scalars {o : CLIOptions} {c c' : LaunchOptions}
    (h : stepHeaders o c = .ok c') : ScalarsEq c c' := by
  unfold stepHeaders at h
  split at h
  · split at h
    · obtain ⟨b, _, hf⟩ := except_bind_ok h
      cases hf
      exact ⟨rfl, rfl, rfl, rfl, rfl, rfl⟩
    · cases h
      exact ⟨rfl, rfl, rfl, rfl, rfl, rfl⟩
  · cases h
    exact ⟨rfl, rfl, rfl, rfl, rfl, rfl⟩

/-- The auth block writes only `config.auth`. -/
theorem stepAuth_scalars {o : CLIOptions} {c c' : LaunchOptions}
    (h : stepAuth o c = .ok c') : ScalarsEq c c' := by
  unfold stepAuth at h
  split at h
  · split at h
    · obtain ⟨b, _, hf⟩ := except_bind_ok h
      cases hf
      exact ⟨rfl, rfl, rfl, rfl, rfl, rfl⟩
    · cases h
      exact ⟨rfl, rfl, rfl, rfl, rfl, rfl⟩
  · cases h
    exact ⟨rfl, rfl, rfl, rfl, rfl, rfl⟩

/-- The delay block writes only `config.delay`. -/
theorem stepDelay_scalars {o : CLIOptions} {c c' : LaunchOptions}
    (h : stepDelay o c = .ok c') : ScalarsEq c c' := by
  unfold stepDelay at h
  split at h
  · split at h
    · obtain ⟨b, _, hf⟩ := except_bind_ok h
      cases hf
      exact ⟨rfl, rfl, rfl, rfl, rfl, rfl⟩
    · cases h
      exact ⟨rfl, rfl, rfl, rfl, rfl, rfl⟩
  · cases h
    exact ⟨rfl, rfl, rfl, rfl, rfl, rfl⟩

/-- The firefoxPrefs block writes only `config.firefoxPrefs`. -/
theorem stepFirefoxPrefs_scalars {o : CLIOptions} {c c' : LaunchOptions}
    (h : stepFirefoxPrefs o c = .ok c') : ScalarsEq c c' := by
  unfold stepFirefoxPrefs at h
  split at h
  · split at h
    · obtain ⟨b, _, hf⟩ := except_bind_ok h
      cases hf
      exact ⟨rfl, rfl, rfl, rfl, rfl, rfl⟩
    · cases h
      exact ⟨rfl, rfl, rfl, rfl, rfl, rfl⟩
  · cases h
    exact ⟨rfl, rfl, rfl, rfl, rfl, rfl⟩

/-- The overrideHost block writes only `config.overrideHost`. -/
theorem stepOverrideHost_scalars {o : CLIOptions} {c c' : LaunchOptions}
    (h : stepOverrideHost o c = .ok c') : ScalarsEq c c' := by
  unfold stepOverrideHost at h
  split at h
  · split at h
    · obtain ⟨b, _, hf⟩ := except_bind_ok h
      cases hf
      exact ⟨rfl, rfl, rfl, rfl, rfl, rfl⟩
    · cases h
      exact ⟨rfl, rfl, rfl, rfl, rfl, rfl⟩
  · cases h
    exact ⟨rfl, rfl, rfl, rfl, rfl, rfl⟩

/-- The block block writes only `config.block`. -/
theorem stepBlock_scalars {o : CLIOptions} {c c' : LaunchOptions}
    (h : stepBlock o c = .ok c') : ScalarsEq c c' := by
  unfold stepBlock at h
  split at h
  · split at h
    · cases h
      exact ⟨rfl, rfl, rfl, rfl, rfl, rfl⟩
    · exact Except.noConfusion h
  · cases h
    exact ⟨rfl, rfl, rfl, rfl, rfl, rfl⟩

/-- The blockDomains block writes only `config.blockDomains`. -/
theorem stepBlockDomains_scalars {o : CLIOptions} {c c' : LaunchOptions}
    (h : stepBlockDomains o c = .ok c') : ScalarsEq c c' := by
  unfold stepBlockDomains at h
  split at h
  · split at h
    · cases h
      exact ⟨rfl, rfl, rfl, rfl, rfl, rfl⟩
    · exact Except.noConfusion h
  · cases h
    exact ⟨rfl, rfl, rfl, rfl, rfl, rfl⟩

/-- The uploadUrl block writes only `config.uploadUrl`. -/
theorem stepUploadUrl_scalars {o : CLIOptions} {c c' : LaunchOptions}
    (h : stepUploadUrl o c = .ok c') : ScalarsEq c c' := by
  unfold stepUploadUrl at h
  split at h
  · split at h
    · split at h
      · cases h
        exact ⟨rfl, rfl, rfl, rfl, rfl, rfl⟩
      · exact Except.noConfusion h
    · cases h
      exact ⟨rfl, rfl, rfl, rfl, rfl, rfl⟩
  · cases h
    exact ⟨rfl, rfl, rfl, rfl, rfl, rfl⟩

/-- The flags block writes only `config.args`. -/
theorem stepFlags_scalars (o : CLIOptions) (c : LaunchOptions) :
    ScalarsEq c (stepFlags o c) := by
  unfold stepFlags
  split
  · exact ⟨rfl, rfl, rfl, rfl, rfl, rfl⟩
  · exact ⟨rfl, rfl, rfl, rfl, rfl, rfl⟩

/-- The delayUsing block leaves every numeric scalar alone. -/
theorem stepDelayUsing_other_scalars (o : CLIOptions) (c : LaunchOptions) :
    (stepDelayUsing o c).width = c.width ∧
      (stepDelayUsing o c).height = c.height ∧
      (stepDelayUsing o c).frameRate = c.frameRate ∧
      (stepDelayUsing o c).timeout = c.timeout ∧
      (stepDelayUsing o c).cpuThrottle = c.cpuThrottle := by
  unfold stepDelayUsing
  split
  · split
    · exact ⟨rfl, rfl, rfl, rfl, rfl⟩
    · exact ⟨rfl, rfl, rfl, rfl, rfl⟩
  · exact ⟨rfl, rfl, rfl, rfl, rfl⟩

/-- What the delayUsing block does to `config.delayUsing`. -/
theorem stepDelayUsing_delayUsing (o : CLIOptions) (c : LaunchOptions) :
    (stepDelayUsing o c).delayUsing =
      (match o.delayUsing with
       | some s => if s = "fulfill" ∨ s = "continue" then s else c.delayUsing
       | none => c.delayUsing) := by
  unfold stepDelayUsing
  cases o.delayUsing with
  | none => rfl
  | some s =>
    by_cases hf : s = "fulfill"
    · subst hf; rfl
    · by_cases hc : s = "continue"
      · subst hc; rfl
      · simp only [beq_iff_eq, hf, hc]
        simp [hf, hc]

/-- The cpuThrottle block leaves the other scalars alone. -/
theorem stepCpuThrottle_other_scalars (o : CLIOptions) (c : LaunchOptions) :
    (stepCpuThrottle o c).width = c.width ∧
      (stepCpuThrottle o c).height = c.height ∧
      (stepCpuThrottle o c).frameRate = c.frameRate ∧
      (stepCpuThrottle o c).timeout = c.timeout ∧
      (stepCpuThrottle o c).delayUsing = c.delayUsing := by
  unfold stepCpuThrottle
  split
  · split
    · exact ⟨rfl, rfl, rfl, rfl, rfl⟩
    · exact ⟨rfl, rfl, rfl, rfl, rfl⟩
  · exact ⟨rfl, rfl, rfl, rfl, rfl⟩

/-- What the cpuThrottle block does: a zero value is dropped by the
truthiness guard. -/
theorem stepCpuThrottle_cpu (o : CLIOptions) (c : LaunchOptions) :
    (stepCpuThrottle o c).cpuThrottle =
      (match o.cpuThrottle with
       | some n => if n.isZero then c.cpuThrottle else some n
       | none => c.cpuThrottle) := by
  unfold stepCpuThrottle
  cases o.cpuThrottle with
  | none => rfl
  | some n =>
    cases hz : n.isZero with
    | true => simp [hz]
    | false => simp [hz]

/-- Splitting a successful run of `normalizeCLIConfig` into its blocks. -/
theorem normalize_decompose {o : CLIOptions} {cfg : LaunchOptions}
    (h : normalizeCLIConfig o = .ok cfg) :
    ∃ c1 c2 c3 c4 c5 c6 c7 c8,
      stepCookies o (initialConfig o) = .ok c1 ∧
      stepHeaders o c1 = .ok c2 ∧
      stepAuth o c2 = .ok c3 ∧
      stepDelay o c3 = .ok c4 ∧
      stepFirefoxPrefs o (stepDelayUsing o c4) = .ok c5 ∧
      stepOverrideHost o c5 = .ok c6 ∧
      stepBlock o (stepCpuThrottle o (stepFlags o c6)) = .ok c7 ∧
      stepBlockDomains o c7 = .ok c8 ∧
      stepUploadUrl o c8 = .ok cfg := by
  unfold normalizeCLIConfig at h
  obtain ⟨c1, h1, h⟩ := except_bind_ok h
  obtain ⟨c2, h2, h⟩ := except_bind_ok h
  obtain ⟨c3, h3, h⟩ := except_bind_ok h
  obtain ⟨c4, h4, h⟩ := except_bind_ok h
  obtain ⟨c5, h5, h⟩ := except_bind_ok h
  obtain ⟨c6, h6, h⟩ := except_bind_ok h
  obtain ⟨c7, h7, h⟩ := except_bind_ok h
  obtain ⟨c8, h8, h⟩ := except_bind_ok h
  exact ⟨c1, c2, c3, c4, c5, c6, c7, c8, h1, h2, h3, h4, h5, h6, h7, h8, h⟩

/-! The claims. -/

/-- C1: for every flag name, every schema and every input string the JSON
parser rejects (the empty string among them), `parseCLIOption` throws a
message containing `Invalid JSON`, the flag name and the parser's
description — and the result does not depend on the schema, so the failure
happens before any schema validation. -/
theorem C1_invalid_json_fails_before_schema (flagName s e : String)
    (schema : ZSchema) (h : jsonParse s = .error e) :
    parseCLIOption flagName s schema =
        .error ("Invalid JSON for \"" ++ flagName ++ "\": " ++ e) ∧
      (∀ schema2 : ZSchema, parseCLIOption flagName s schema2 =
        parseCLIOption flagName s schema) ∧
      (∃ pre post, "Invalid JSON for \"" ++ flagName ++ "\": " ++ e =
        pre ++ "Invalid JSON" ++ post) ∧
      (∃ pre post, "Invalid JSON for \"" ++ flagName ++ "\": " ++ e =
        pre ++ flagName ++ post) ∧
      (∃ pre post, "Invalid JSON for \"" ++ flagName ++ "\": " ++ e =
        pre ++ e ++ post) ∧
      (∃ e0, jsonParse "" = Except.error e0) := by
  refine ⟨?_, ?_, ?_, ?_, ?_, ⟨"Unexpected end of JSON input", rfl⟩⟩
  · simp only [parseCLIOption, h]
  · intro schema2
    simp only [parseCLIOption, h]
  · exact ⟨"", " for \"" ++ flagName ++ "\": " ++ e, rfl⟩
  · exact ⟨"Invalid JSON for \"", "\": " ++ e, String.append_assoc _ _ _⟩
  · exact ⟨"Invalid JSON for \"" ++ flagName ++ "\": ", "",
      (String.append_empty _).symm⟩

/-- Witness for C1 at the empty string and the cookies schema. -/
theorem C1_witness :
    jsonParse "" = .error "Unexpected end of JSON input" ∧
      parseCLIOption "--cookies" "" CookiesSchema =
        .error "Invalid JSON for \"--cookies\": Unexpected end of JSON input" := by
  constructor
  · rfl
  · exact (C1_invalid_json_fails_before_schema "--cookies" ""
      "Unexpected end of JSON input" CookiesSchema rfl).1

/-- Mapping the issue-line rendering commutes with positional lookup: the
k-th rendered line is the rendering of the k-th issue. -/
theorem zIssueLine_getD (issues : List ZIssue) :
    ∀ k, k < issues.length →
      (issues.map zIssueLine).getD k "" = zIssueLine (issues.getD k ⟨[], ""⟩) := by
  induction issues with
  | nil => intro k hk; simp at hk
  | cons i rest ih =>
    intro k hk
    cases k with
    | zero => rfl
    | succ n => exact ih n (by simpa using hk)

/-- C2: when the input is valid JSON (or already structured) but the schema
reports issues, both entry points throw `Invalid data` naming the flag,
followed by one line per issue — two spaces and a dash, the dot-joined path
or the `(root)` marker, a colon and the message — in the order the schema
produced the issues. -/
theorem C2_invalid_data_message (flagName s : String) (schema : ZSchema)
    (v : JValue) (issues : List ZIssue)
    (hj : jsonParse s = .ok v) (hs : schema v = .error issues) :
    parseCLIOption flagName s schema =
        .error ("Invalid data for \"" ++ flagName ++ "\":\n" ++ formatZodError issues) ∧
      parseUnknown flagName v schema =
        .error ("Invalid data for \"" ++ flagName ++ "\":\n" ++ formatZodError issues) ∧
      formatZodError issues = String.intercalate "\n" (issues.map zIssueLine) ∧
      (issues.map zIssueLine).length = issues.length ∧
      (∀ k, k < issues.length →
        (issues.map zIssueLine).getD k "" = zIssueLine (issues.getD k ⟨[], ""⟩)) ∧
      (∀ i : ZIssue, zIssueLine i = "  - " ++
        (if i.path.length > 0 then String.intercalate "." i.path else "(root)") ++
        ": " ++ i.message) ∧
      (∃ pre post, "Invalid data for \"" ++ flagName ++ "\":\n" ++ formatZodError issues =
        pre ++ "Invalid data" ++ post) ∧
      (∃ pre post, "Invalid data for \"" ++ flagName ++ "\":\n" ++ formatZodError issues =
        pre ++ flagName ++ post) := by
  refine ⟨?_, ?_, rfl, by simp, zIssueLine_getD issues, fun i => rfl, ?_, ?_⟩
  · simp only [parseCLIOption, hj, hs]
  · simp only [parseUnknown, hs]
  · exact ⟨"", " for \"" ++ flagName ++ "\":\n" ++ formatZodError issues, rfl⟩
  · exact ⟨"Invalid data for \"", "\":\n" ++ formatZodError issues,
      String.append_assoc _ _ _⟩

/-- Witness for C2 at a cookie object missing three required fields,
exercising multi-issue order. -/
theorem C2_witness :
    jsonParse "\x7b\"value\":\"b\"\x7d" = .ok (.obj [("value", .str "b")]) ∧
      CookieSchema (.obj [("value", .str "b")]) =
        .error [⟨["name"], "Required"⟩, ⟨["domain"], "Required"⟩,
          ⟨["path"], "Required"⟩] ∧
      parseCLIOption "--cookies" "\x7b\"value\":\"b\"\x7d" CookieSchema =
        .error "Invalid data for \"--cookies\":\n  - name: Required\n  - domain: Required\n  - path: Required" := by
  refine ⟨rfl, rfl, ?_⟩
  exact (C2_invalid_data_message "--cookies" "\x7b\"value\":\"b\"\x7d" CookieSchema
    (.obj [("value", .str "b")])
    [⟨["name"], "Required"⟩, ⟨["domain"], "Required"⟩, ⟨["path"], "Required"⟩]
    rfl rfl).1

/-- C3 (refuting the claim as stated): in `src/schemas.ts` the `domain` and
`path` fields of `CookieSchema` carry no `.optional()`, so a cookie with
only `name` and `value` — or with `url` instead of `domain`/`path` — is
rejected with `Required` issues, although the claim (and the repository's
own tests) say such cookies are accepted.  The other parts of the claim do
hold: an unknown extra field passes through, and a cookie missing `name` or
`value` is rejected. -/
theorem C3_cookie_schema_requires_domain_path :
    CookieSchema (.obj [("name", .str "a"), ("value", .str "b")]) =
        .error [⟨["domain"], "Required"⟩, ⟨["path"], "Required"⟩] ∧
      CookiesSchema (.obj [("name", .str "a"), ("value", .str "b")]) =
        .error [⟨[], "Invalid input"⟩] ∧
      parseCLIOption "--cookies" "\x7b\"name\":\"a\",\"value\":\"b\"\x7d" CookiesSchema =
        .error "Invalid data for \"--cookies\":\n  - (root): Invalid input" ∧
      CookiesSchema (.obj [("name", .str "a"), ("value", .str "b"),
        ("url", .str "https://example.com")]) = .error [⟨[], "Invalid input"⟩] ∧
      CookiesSchema (.obj [("name", .str "a"), ("value", .str "b"),
        ("domain", .str "d"), ("path", .str "/"), ("extra", .str "field")]) =
        .ok (.obj [("name", .str "a"), ("value", .str "b"),
          ("domain", .str "d"), ("path", .str "/"), ("extra", .str "field")]) ∧
      CookiesSchema (.obj [("value", .str "b"), ("domain", .str "d"),
        ("path", .str "/")]) = .error [⟨[], "Invalid input"⟩] ∧
      CookiesSchema (.arr [.obj [("name", .str "a"), ("value", .str "b"),
        ("domain", .str "d"), ("path", .str "/")]]) =
        .ok (.arr [.obj [("name", .str "a"), ("value", .str "b"),
          ("domain", .str "d"), ("path", .str "/")]]) := by
  exact ⟨rfl, rfl, rfl, rfl, rfl, rfl, rfl⟩

/-- C4 (refuting the claim as stated): the delay block of
`normalizeCLIConfig` is a bare `JSON.parse` with a TypeScript cast and no
schema validation, so a delay map carrying the string value `"slow"` is
accepted instead of failing. -/
theorem C4_delay_values_not_validated :
    stringDelayOptions.delay = some "\x7b\".css$\": \"slow\"\x7d" ∧
      normalizeCLIConfig stringDelayOptions =
        (normalizeCLIConfig (baseOptions "https://example.com")).map
          (fun cfg => { cfg with delay := some (.obj [(".css$", .str "slow")]) }) ∧
      (normalizeCLIConfig stringDelayOptions).map LaunchOptions.delay =
        .ok (some (.obj [(".css$", .str "slow")])) := by
  exact ⟨rfl, rfl, rfl⟩

/-- C5 (refuting the claim as stated): `normalizeCLIConfig` routes every
truthy cookies value through `parseCLIOption`, with no runtime-type
dispatch.  A pre-typed cookie array is stringified by `JSON.parse` to
`[object Object]`, so normalization throws `Invalid JSON` instead of
passing the array through unchanged (which the repository's
"passes through already-parsed cookies" test expects). -/
theorem C5_pretyped_cookies_not_passed_through :
    jsToString preTypedCookies = "[object Object]" ∧
      stepCookies preTypedCookieOptions (initialConfig preTypedCookieOptions) =
        .error "Invalid JSON for \"--cookies\": Unexpected token o in JSON" ∧
      normalizeCLIConfig preTypedCookieOptions =
        .error "Invalid JSON for \"--cookies\": Unexpected token o in JSON" := by
  exact ⟨rfl, rfl, rfl⟩

/-- Bind on a success reduces. -/
theorem except_ok_bind {α β γ : Type} (b : β) (f : β → Except α γ) :
    (Except.ok b : Except α β) >>= f = f b := rfl

/-- Bind on a failure reduces. -/
theorem except_error_bind {α β γ : Type} (e : α) (f : β → Except α γ) :
    (Except.error e : Except α β) >>= f = Except.error e := rfl

/-- Map on a success reduces. -/
theorem except_map_ok {α β γ : Type} (b : β) (f : β → γ) :
    (Except.ok b : Except α β).map f = .ok (f b) := rfl

/-- Map on a failure reduces. -/
theorem except_map_error {α β γ : Type} (e : α) (f : β → γ) :
    (Except.error e : Except α β).map f = .error e := rfl

/-- Pure is success. -/
theorem except_pure {α β : Type} (b : β) :
    (pure b : Except α β) = .ok b := rfl

/-- C6: the normalized `delayUsing` equals the supplied value exactly when
that value is the literal `fulfill` or `continue`, and otherwise stays at
the default; an unrecognized value behaves exactly like an absent one, so
no error is raised for it. -/
theorem C6_delayUsing_literal_only (options : CLIOptions) (cfg : LaunchOptions)
    (h : normalizeCLIConfig options = .ok cfg) :
    cfg.delayUsing =
        (match options.delayUsing with
         | some s => if s = "fulfill" ∨ s = "continue" then s
             else DEFAULT_OPTIONS.delayUsing
         | none => DEFAULT_OPTIONS.delayUsing) ∧
      (∀ v, v ≠ "fulfill" → v ≠ "continue" →
        normalizeCLIConfig { options with delayUsing := some v } =
          normalizeCLIConfig { options with delayUsing := none }) := by
  constructor
  · obtain ⟨c1, c2, c3, c4, c5, c6, c7, c8, h1, h2, h3, h4, h5, h6, h7, h8, h9⟩ :=
      normalize_decompose h
    have hc4 : c4.delayUsing = DEFAULT_OPTIONS.delayUsing := by
      rw [(stepDelay_scalars h4).delayUsing, (stepAuth_scalars h3).delayUsing,
        (stepHeaders_scalars h2).delayUsing, (stepCookies_scalars h1).delayUsing]
      rfl
    rw [(stepUploadUrl_scalars h9).delayUsing, (stepBlockDomains_scalars h8).delayUsing,
      (stepBlock_scalars h7).delayUsing,
      (stepCpuThrottle_other_scalars options (stepFlags options c6)).2.2.2.2,
      (stepFlags_scalars options c6).delayUsing,
      (stepOverrideHost_scalars h6).delayUsing,
      (stepFirefoxPrefs_scalars h5).delayUsing,
      stepDelayUsing_delayUsing, hc4]
  · intro v hv1 hv2
    have hsome : ∀ c, stepDelayUsing { options with delayUsing := some v } c = c := by
      intro c
      unfold stepDelayUsing
      simp [hv1, hv2]
    have hnone : ∀ c, stepDelayUsing { options with delayUsing := none } c = c :=
      fun c => rfl
    unfold normalizeCLIConfig
    simp only [hsome, hnone]
    rfl

/-- The fully-defaulted configuration for a bare-`url` input. -/
def defaultNormalized (url : String) : LaunchOptions :=
  { url := url, browser := "chromium", width := ⟨1366, 0⟩, height := ⟨768, 0⟩,
    frameRate := ⟨30, 0⟩, timeout := ⟨30000, 0⟩, blockDomains := [], block := [],
    disableJS := false, debug := false, html := false, openHtml := false,
    list := false, connectionType := "online", auth := none, zip := false,
    dry := false, delayUsing := "fulfill", cookies := none, headers := none,
    delay := none, firefoxPrefs := none, overrideHost := none, args := none,
    cpuThrottle := none, uploadUrl := none }

/-- Witness for C6: an unrecognized value behaves like none and keeps the
default, while the exact literal `continue` overrides it. -/
theorem C6_witness :
    normalizeCLIConfig { baseOptions "u" with delayUsing := some "sometimes" } =
        normalizeCLIConfig { baseOptions "u" with delayUsing := none } ∧
      (normalizeCLIConfig { baseOptions "u" with delayUsing := some "sometimes" }).map
        LaunchOptions.delayUsing = .ok "fulfill" ∧
      (normalizeCLIConfig { baseOptions "u" with delayUsing := some "continue" }).map
        LaunchOptions.delayUsing = .ok "continue" := by
  refine ⟨?_, rfl, rfl⟩
  exact (C6_delayUsing_literal_only
    { baseOptions "u" with delayUsing := some "sometimes" }
    (defaultNormalized "u") rfl).2 "sometimes" (by decide) (by decide)

/-- The per-entry interpretation, stated as the claim words it (the
spec-side definition of the refinement): a JSON array validated as a string
list when the entry contains `[`, a comma-separated token list with empty
tokens dropped otherwise. -/
def blockEntrySpec (flagName : String) (entry : String) :
    Except String (List String) :=
  if jsIncludes entry '[' then do
    let parsed ← jsonParse entry
    let validated ← parseUnknown flagName parsed StringArraySchema
    pure (jStrings validated)
  else pure ((jsSplitComma entry).filter (fun opt => opt != ""))

/-- Per-entry results concatenated in input order, the first failure
aborting (the spec-side definition of the refinement). -/
def blockListSpec (flagName : String) : List String → Except String (List String)
  | [] => .ok []
  | e :: rest => do
    let head ← blockEntrySpec flagName e
    let tail ← blockListSpec flagName rest
    pure (head ++ tail)

/-- The loop body of `parseJSONArrayOrCommaSeparatedStrings` is the
per-entry interpretation followed by appending to the accumulator. -/
theorem blockBody_eq (flagName : String) (chosen : List String) (e : String) :
    (if jsIncludes e '[' then do
        let parsed ← jsonParse e
        let validated ← parseUnknown flagName parsed StringArraySchema
        pure (chosen ++ jStrings validated)
      else
        pure (chosen ++ (jsSplitComma e).filter (fun opt => opt != ""))) =
      (blockEntrySpec flagName e).map (fun l => chosen ++ l) := by
  unfold blockEntrySpec
  by_cases hb : jsIncludes e '[' = true
  · simp only [hb, if_true]
    cases jsonParse e with
    | error err => rfl
    | ok v =>
      simp only [except_ok_bind]
      cases parseUnknown flagName v StringArraySchema with
      | error err => rfl
      | ok w => rfl
  · simp only [hb, if_false]
    rfl

/-- Folding the per-entry interpretation over the entries equals the
compositional spec-side description, for every accumulator. -/
theorem foldlM_blockEntry (flagName : String) (entries : List String) :
    ∀ acc : List String,
      List.foldlM (fun chosen e => (blockEntrySpec flagName e).map
          (fun l => chosen ++ l)) acc entries =
        (blockListSpec flagName entries).map (fun l => acc ++ l) := by
  induction entries with
  | nil =>
    intro acc
    simp [blockListSpec, except_map_ok, except_pure]
  | cons e rest ih =>
    intro acc
    rw [List.foldlM_cons]
    cases hent : blockEntrySpec flagName e with
    | error err =>
      simp [blockListSpec, hent, except_map_error, except_error_bind]
    | ok hd =>
      simp only [blockListSpec, hent, except_map_ok, except_ok_bind]
      rw [ih (acc ++ hd)]
      cases blockListSpec flagName rest with
      | error err => rfl
      | ok tl =>
        simp [except_map_ok, except_ok_bind, except_pure, List.append_assoc]

/-- The accumulator form of the block parser equals the compositional
spec-side description. -/
theorem parseJSONArray_foldl_spec (flagName : String) (entries : List String) :
    parseJSONArrayOrCommaSeparatedStrings flagName entries =
      (blockListSpec flagName entries).map (fun l => ([] : List String) ++ l) := by
  unfold parseJSONArrayOrCommaSeparatedStrings
  have hfun : (fun (chosen : List String) (optGroup : String) =>
      if jsIncludes optGroup '[' then do
        let parsed ← jsonParse optGroup
        let validated ← parseUnknown flagName parsed StringArraySchema
        pure (chosen ++ jStrings validated)
      else
        pure (chosen ++ (jsSplitComma optGroup).filter (fun opt => opt != ""))) =
      (fun chosen e => (blockEntrySpec flagName e).map (fun l => chosen ++ l)) := by
    funext chosen e
    exact blockBody_eq flagName chosen e
  rw [hfun, foldlM_blockEntry flagName entries []]

/-- C7: `block`/`blockDomains` parsing interprets each entry independently
(JSON array when it contains `[`, comma-split with empty tokens dropped
otherwise), concatenates per-entry results in input order, and the
normalizer re-throws any failure with the
`Problem parsing "--<flag>" options - ` prefix around the inner message. -/
theorem C7_block_list_parsing (flagName : String) (entries : List String)
    (options : CLIOptions) (config : LaunchOptions) :
    parseJSONArrayOrCommaSeparatedStrings flagName entries =
        blockListSpec flagName entries ∧
      (options.block = some entries →
        (∀ parsed, parseJSONArrayOrCommaSeparatedStrings "--block" entries = .ok parsed →
          stepBlock options config = .ok { config with block := parsed }) ∧
        (∀ e, parseJSONArrayOrCommaSeparatedStrings "--block" entries = .error e →
          stepBlock options config =
            .error ("Problem parsing \"--block\" options - " ++ e))) ∧
      (options.blockDomains = some entries →
        (∀ e, parseJSONArrayOrCommaSeparatedStrings "--blockDomains" entries = .error e →
          stepBlockDomains options config =
            .error ("Problem parsing \"--blockDomains\" options - " ++ e))) := by
  refine ⟨?_, ?_, ?_⟩
  · rw [parseJSONArray_foldl_spec flagName entries]
    cases blockListSpec flagName entries with
    | error err => rfl
    | ok l => simp [except_map_ok]
  · intro hbl
    constructor
    · intro parsed hp
      unfold stepBlock
      rw [hbl]
      simp only [hp]
      rfl
    · intro e hp
      unfold stepBlock
      rw [hbl]
      simp only [hp]
  · intro hbd e hp
    unfold stepBlockDomains
    rw [hbd]
    simp only [hp]

/-- Witness for C7: the spec's single-quoted entry (invalid JSON despite
containing `[`) is wrapped with the `Problem parsing` prefix, and a mixed
valid input concatenates in order. -/
theorem C7_witness :
    parseJSONArrayOrCommaSeparatedStrings "--block" ["[ \x27one\x27, \x27two\x27 ]"] =
        .error "Unexpected token \x27 in JSON" ∧
      stepBlock singleQuotedBlockOptions (initialConfig singleQuotedBlockOptions) =
        .error "Problem parsing \"--block\" options - Unexpected token \x27 in JSON" ∧
      parseJSONArrayOrCommaSeparatedStrings "--block" ["a,b", "[\"c\",\"d\"]", ",e,"] =
        .ok ["a", "b", "c", "d", "e"] := by
  refine ⟨rfl, ?_, rfl⟩
  exact ((C7_block_list_parsing "--block" ["[ \x27one\x27, \x27two\x27 ]"]
    singleQuotedBlockOptions (initialConfig singleQuotedBlockOptions)).2.1 rfl).2
    "Unexpected token \x27 in JSON" rfl

/-- C8: the positive-integer and positive-float schemas coerce
numeric-looking strings with `ToNumber` before a strict-positivity check,
the integer variant additionally rejecting non-integral values; each of the
claim's concrete examples behaves as stated. -/
theorem C8_positive_numeric_schemas :
    PositiveIntSchema (.str "42") = .ok ⟨42, 0⟩ ∧
      PositiveIntSchema (.num ⟨10, 0⟩) = .ok ⟨10, 0⟩ ∧
      PositiveIntSchema (.str "0") = .error [⟨[], "Number must be greater than 0"⟩] ∧
      PositiveIntSchema (.str "-5") = .error [⟨[], "Number must be greater than 0"⟩] ∧
      PositiveIntSchema (.str "3.5") = .error [⟨[], "Expected integer, received float"⟩] ∧
      PositiveIntSchema (.str "abc") = .error [⟨[], "Expected number, received nan"⟩] ∧
      PositiveIntSchema (.str "") = .error [⟨[], "Number must be greater than 0"⟩] ∧
      PositiveFloatSchema (.str "4.5") = .ok ⟨45, 1⟩ ∧
      PositiveFloatSchema (.str "2") = .ok ⟨2, 0⟩ ∧
      PositiveFloatSchema (.num ⟨314, 2⟩) = .ok ⟨314, 2⟩ ∧
      PositiveFloatSchema (.str "0") = .error [⟨[], "Number must be greater than 0"⟩] ∧
      PositiveFloatSchema (.str "-1.5") = .error [⟨[], "Number must be greater than 0"⟩] ∧
      PositiveFloatSchema (.str "fast") = .error [⟨[], "Expected number, received nan"⟩] ∧
      (∀ v n, jsToNumber v = some n →
        (PositiveIntSchema v = .ok n ↔ n.isInteger = true ∧ n.isPositive = true) ∧
        (PositiveFloatSchema v = .ok n ↔ n.isPositive = true)) := by
  refine ⟨rfl, rfl, rfl, rfl, rfl, rfl, rfl, rfl, rfl, rfl, rfl, rfl, rfl, ?_⟩
  intro v n hv
  unfold PositiveIntSchema PositiveFloatSchema
  rw [hv]
  cases hI : n.isInteger <;> cases hP : n.isPositive <;> simp [hI, hP]

/-- Witness for C8, applying the coercion characterization at `"42"`. -/
theorem C8_witness :
    jsToNumber (.str "42") = some ⟨42, 0⟩ ∧
      (PositiveIntSchema (.str "42") = .ok ⟨42, 0⟩ ↔
        JNum.isInteger ⟨42, 0⟩ = true ∧ JNum.isPositive ⟨42, 0⟩ = true) := by
  refine ⟨rfl, ?_⟩
  exact ((C8_positive_numeric_schemas).2.2.2.2.2.2.2.2.2.2.2.2.2
    (.str "42") ⟨42, 0⟩ rfl).1

/-- C9: a supplied `cpuThrottle` of `0` is dropped by the truthiness guard
(the normalized config carries no `cpuThrottle`), unlike `width`, `height`,
`frameRate` and `timeout`, whose `??` defaulting preserves a supplied `0`. -/
theorem C9_cpuThrottle_zero_dropped (options : CLIOptions) (cfg : LaunchOptions)
    (hcpu : options.cpuThrottle = some ⟨0, 0⟩)
    (hw : options.width = some ⟨0, 0⟩) (hh : options.height = some ⟨0, 0⟩)
    (hf : options.frameRate = some ⟨0, 0⟩) (ht : options.timeout = some ⟨0, 0⟩)
    (h : normalizeCLIConfig options = .ok cfg) :
    cfg.cpuThrottle = none ∧ cfg.width = ⟨0, 0⟩ ∧ cfg.height = ⟨0, 0⟩ ∧
      cfg.frameRate = ⟨0, 0⟩ ∧ cfg.timeout = ⟨0, 0⟩ := by
  obtain ⟨c1, c2, c3, c4, c5, c6, c7, c8, h1, h2, h3, h4, h5, h6, h7, h8, h9⟩ :=
    normalize_decompose h
  have s1 := stepCookies_scalars h1
  have s2 := stepHeaders_scalars h2
  have s3 := stepAuth_scalars h3
  have s4 := stepDelay_scalars h4
  have s5 := stepFirefoxPrefs_scalars h5
  have s6 := stepOverrideHost_scalars h6
  have s7 := stepBlock_scalars h7
  have s8 := stepBlockDomains_scalars h8
  have s9 := stepUploadUrl_scalars h9
  have sdu := stepDelayUsing_other_scalars options c4
  have scf := stepFlags_scalars options c6
  have scc := stepCpuThrottle_other_scalars options (stepFlags options c6)
  have scp := stepCpuThrottle_cpu options (stepFlags options c6)
  have hc6cpu : c6.cpuThrottle = none := by
    rw [s6.cpuThrottle, s5.cpuThrottle, sdu.2.2.2.2, s4.cpuThrottle,
      s3.cpuThrottle, s2.cpuThrottle, s1.cpuThrottle]
    rfl
  refine ⟨?_, ?_, ?_, ?_, ?_⟩
  · rw [s9.cpuThrottle, s8.cpuThrottle, s7.cpuThrottle, scp, hcpu]
    simp [JNum.isZero, scf.cpuThrottle, hc6cpu]
  · rw [s9.width, s8.width, s7.width, scc.1, scf.width, s6.width, s5.width,
      sdu.1, s4.width, s3.width, s2.width, s1.width]
    show options.width.getD DEFAULT_OPTIONS.width = ⟨0, 0⟩
    rw [hw]
    rfl
  · rw [s9.height, s8.height, s7.height, scc.2.1, scf.height, s6.height,
      s5.height, sdu.2.1, s4.height, s3.height, s2.height, s1.height]
    show options.height.getD DEFAULT_OPTIONS.height = ⟨0, 0⟩
    rw [hh]
    rfl
  · rw [s9.frameRate, s8.frameRate, s7.frameRate, scc.2.2.1, scf.frameRate,
      s6.frameRate, s5.frameRate, sdu.2.2.1, s4.frameRate, s3.frameRate,
      s2.frameRate, s1.frameRate]
    show options.frameRate.getD DEFAULT_OPTIONS.frameRate = ⟨0, 0⟩
    rw [hf]
    rfl
  · rw [s9.timeout, s8.timeout, s7.timeout, scc.2.2.2.1, scf.timeout,
      s6.timeout, s5.timeout, sdu.2.2.2.1, s4.timeout, s3.timeout, s2.timeout,
      s1.timeout]
    show options.timeout.getD DEFAULT_OPTIONS.timeout = ⟨0, 0⟩
    rw [ht]
    rfl

/-- Options supplying an explicit zero for every numeric field. -/
def zeroOptions : CLIOptions :=
  { baseOptions "u" with
      cpuThrottle := some ⟨0, 0⟩, width := some ⟨0, 0⟩, height := some ⟨0, 0⟩,
      frameRate := some ⟨0, 0⟩, timeout := some ⟨0, 0⟩ }

/-- What `normalizeCLIConfig` produces for `zeroOptions`. -/
def zeroNormalized : LaunchOptions :=
  { defaultNormalized "u" with
      width := ⟨0, 0⟩, height := ⟨0, 0⟩, frameRate := ⟨0, 0⟩,
      timeout := ⟨0, 0⟩ }

/-- Witness for C9 at an input supplying zero everywhere. -/
theorem C9_witness :
    zeroOptions.cpuThrottle = some ⟨0, 0⟩ ∧
      normalizeCLIConfig zeroOptions = .ok zeroNormalized ∧
      zeroNormalized.cpuThrottle = none ∧ zeroNormalized.width = ⟨0, 0⟩ ∧
      zeroNormalized.height = ⟨0, 0⟩ ∧ zeroNormalized.frameRate = ⟨0, 0⟩ ∧
      zeroNormalized.timeout = ⟨0, 0⟩ := by
  have h := C9_cpuThrottle_zero_dropped zeroOptions zeroNormalized
    rfl rfl rfl rfl rfl rfl
  exact ⟨rfl, rfl, h.1, h.2.1, h.2.2.1, h.2.2.2.1, h.2.2.2.2⟩

/-- C10: the comma path never trims: `split(/,/)` keeps every token
verbatim and only the empty token is dropped, so `"a, b"` yields `"a"` and
`" b"` (leading space preserved) and a whitespace-only token survives. -/
theorem C10_comma_tokens_untrimmed (flagName s : String)
    (h : jsIncludes s '[' = false) :
    parseJSONArrayOrCommaSeparatedStrings flagName [s] =
        .ok ((jsSplitComma s).filter (fun opt => opt != "")) ∧
      jsSplitComma "a, b" = ["a", " b"] ∧
      (jsSplitComma "a, b").filter (fun opt => opt != "") = ["a", " b"] ∧
      (jsSplitComma "x,  ,y").filter (fun opt => opt != "") = ["x", "  ", "y"] ∧
      (jsSplitComma "a,,b").filter (fun opt => opt != "") = ["a", "b"] := by
  refine ⟨?_, rfl, rfl, rfl, rfl⟩
  unfold parseJSONArrayOrCommaSeparatedStrings
  rw [List.foldlM_cons]
  simp [h, except_pure, except_ok_bind]

/-- Witness for C10 on the entry `"a, b"`. -/
theorem C10_witness :
    jsIncludes "a, b" '[' = false ∧
      parseJSONArrayOrCommaSeparatedStrings "--block" ["a, b"] =
        .ok ["a", " b"] := by
  refine ⟨rfl, ?_⟩
  exact (C10_comma_tokens_untrimmed "--block" "a, b" rfl).1
